/-
Verification of the GZCTF-DC-Bot change-detection and reliable-delivery
pipeline: a shallow embedding of tracker.rs, queue.rs and polling.rs,
with machine-checked statements of the specified properties.

Timestamps and the send/write side effects are passed explicitly; machine
integers are modelled as Nat with wrap-around taken mod 2^w where the Rust
release semantics wraps.
-/
import Mathlib

set_option linter.unusedVariables false

/-- Announcement record fetched from the platform (models.rs, struct Notice). -/
structure Notice where
  id : Nat
  notice_type : String
  values : List String
  time : Nat
deriving DecidableEq

/-- Announcement kind (models.rs, enum NoticeType). -/
inductive NoticeType where
  | Normal
  | NewChallenge
  | NewHint
  | FirstBlood
  | SecondBlood
  | ThirdBlood
deriving DecidableEq

namespace NoticeType

/-- Parse of the wire string (models.rs, NoticeType::from_str). -/
def fromStr : String → Option NoticeType
  | "Normal" => some .Normal
  | "NewChallenge" => some .NewChallenge
  | "NewHint" => some .NewHint
  | "FirstBlood" => some .FirstBlood
  | "SecondBlood" => some .SecondBlood
  | "ThirdBlood" => some .ThirdBlood
  | _ => none

/-- Debug rendering used as the tracker key component (polling.rs uses the
Debug format of the kind). -/
def typeStr : NoticeType → String
  | .Normal => "Normal"
  | .NewChallenge => "NewChallenge"
  | .NewHint => "NewHint"
  | .FirstBlood => "FirstBlood"
  | .SecondBlood => "SecondBlood"
  | .ThirdBlood => "ThirdBlood"

end NoticeType

/-- Queue element (queue.rs, struct MessageItem). `retry_count` models the
Rust u8 field (kept below 256 by the operations), `next_retry_at` the u64
unix-seconds deadline. -/
structure MessageItem where
  id : String
  notice : Notice
  notice_type : NoticeType
  match_name : Option String
  match_id : Nat
  base_url : String
  retry_count : Nat
  next_retry_at : Nat
deriving DecidableEq

namespace MessageItem

/-- Constructor (queue.rs, MessageItem::new): retry_count starts at 0 and
next_retry_at is the current timestamp, which is passed explicitly. -/
def new (id : String) (notice : Notice) (notice_type : NoticeType)
    (match_name : Option String) (match_id : Nat) (base_url : String)
    (now : Nat) : MessageItem :=
  { id := id, notice := notice, notice_type := notice_type,
    match_name := match_name, match_id := match_id, base_url := base_url,
    retry_count := 0, next_retry_at := now }

/-- Backoff delay (queue.rs, MessageItem::calc_delay): `1u64 << (retry_count + 1)`.
The u8 addition wraps mod 256 and the u64 shift amount is masked mod 64
(Rust release semantics). -/
def calc_delay (it : MessageItem) : Nat :=
  2 ^ (((it.retry_count + 1) % 256) % 64)

/-- Failed-attempt bookkeeping (queue.rs, MessageItem::increment_retry):
bump the count first, then schedule `now + calc_delay` with the new count. -/
def increment_retry (it : MessageItem) (now : Nat) : MessageItem :=
  let bumped : MessageItem := { it with retry_count := (it.retry_count + 1) % 256 }
  { bumped with next_retry_at := now + bumped.calc_delay }

/-- Due check (queue.rs, MessageItem::can_retry). -/
def can_retry (it : MessageItem) (now : Nat) : Bool :=
  decide (it.next_retry_at ≤ now)

/-- Promotion check (queue.rs, MessageItem::should_persist). -/
def should_persist (it : MessageItem) : Bool :=
  decide (4 ≤ it.retry_count)

end MessageItem

/-- Tracker key string (tracker.rs builds the key with format "mid:type"). -/
def trackerKey (match_id : Nat) (notice_type : String) : String :=
  toString match_id ++ ":" ++ notice_type

/-- Dedup state (tracker.rs, struct NoticeTracker). `seen_ids` models the
HashMap from key string to HashSet of notice ids as an extensional map.
The `timestamps` field is Modelled from the spec: polling.rs calls
`set_timestamp` / `get_timestamp` / `update_timestamp` on the tracker, but
tracker.rs in the snapshot has no such methods; the spec describes the state
they maintain as a per-key watermark (`maxSeenTimestamp`), absent key = 0. -/
structure NoticeTracker where
  seen_ids : String → Option (Nat → Bool)
  timestamps : String → Nat

namespace NoticeTracker

/-- Fresh tracker (tracker.rs, NoticeTracker::new). -/
def new : NoticeTracker :=
  { seen_ids := fun _ => none, timestamps := fun _ => 0 }

/-- Membership query (tracker.rs, NoticeTracker::is_seen). -/
def is_seen (t : NoticeTracker) (match_id : Nat) (notice_type : String)
    (notice_id : Nat) : Bool :=
  ((t.seen_ids (trackerKey match_id notice_type)).map
    (fun ids => ids notice_id)).getD false

/-- Insertion (tracker.rs, NoticeTracker::mark_seen): entry-or-insert the
empty set, then insert the id. -/
def mark_seen (t : NoticeTracker) (match_id : Nat) (notice_type : String)
    (notice_id : Nat) : NoticeTracker :=
  let key := trackerKey match_id notice_type
  let current := (t.seen_ids key).getD (fun _ => false)
  { t with seen_ids := fun k =>
      if k = key then some (fun n => n == notice_id || current n)
      else t.seen_ids k }

/-- Wholesale replacement (tracker.rs, NoticeTracker::mark_all_seen): the
key's set is overwritten with exactly the given ids. -/
def mark_all_seen (t : NoticeTracker) (match_id : Nat) (notice_type : String)
    (notice_ids : List Nat) : NoticeTracker :=
  let key := trackerKey match_id notice_type
  { t with seen_ids := fun k =>
      if k = key then some (fun n => notice_ids.contains n)
      else t.seen_ids k }

/-- Modelled from the spec: `NoticeTracker::get_timestamp` is called from
polling.rs but missing from tracker.rs; per the spec's watermark contract it
reads the per-key maximum seen timestamp. -/
def get_timestamp (t : NoticeTracker) (match_id : Nat) (notice_type : String) : Nat :=
  t.timestamps (trackerKey match_id notice_type)

/-- Modelled from the spec: `NoticeTracker::set_timestamp` is called from
polling.rs (startup baseline) but missing from tracker.rs; the spec's
`initialize` records the latest fetched timestamp for the key. -/
def set_timestamp (t : NoticeTracker) (match_id : Nat) (notice_type : String)
    (time : Nat) : NoticeTracker :=
  let key := trackerKey match_id notice_type
  { t with timestamps := fun k => if k = key then time else t.timestamps k }

/-- Modelled from the spec: `NoticeTracker::update_timestamp` is called from
polling.rs but missing from tracker.rs; per the spec, `recordSeen` "updates
the watermark upward ... never regresses", i.e. takes the maximum. -/
def update_timestamp (t : NoticeTracker) (match_id : Nat) (notice_type : String)
    (time : Nat) : NoticeTracker :=
  let key := trackerKey match_id notice_type
  { t with timestamps := fun k =>
      if k = key then max (t.timestamps key) time else t.timestamps k }

end NoticeTracker

/-- Persist-file state: absent, present but unparsable, or parsed content. -/
inductive DiskFile where
  | absent
  | corrupt
  | stored (items : List MessageItem)
deriving DecidableEq

/-- Items readable from the persist file (empty when absent or unparsable). -/
def diskItems : DiskFile → List MessageItem
  | .absent => []
  | .corrupt => []
  | .stored l => l

/-- Read-merge-write append (queue.rs, MessageQueue::append_to_disk): empty
input returns early; an existing-but-unparsable file is treated as empty via
`unwrap_or_default`; `writeOk` models whether the final `fs::write` succeeds. -/
def append_to_disk (disk : DiskFile) (items : List MessageItem)
    (writeOk : Bool) : Except Unit DiskFile :=
  if items.isEmpty then .ok disk
  else
    let existing := diskItems disk
    if writeOk then .ok (.stored (existing ++ items)) else .error ()

/-- Startup load (queue.rs, MessageQueue::load_from_disk): missing file is a
no-op; a parse failure is returned as an error (the `?` operator); otherwise
every stored item is pushed onto the queue and the file is removed
(`removeOk` models whether `fs::remove_file` succeeds). Returns the queue,
the file state, and the overall result. -/
def load_from_disk (disk : DiskFile) (queue : List MessageItem)
    (removeOk : Bool) : List MessageItem × DiskFile × Except Unit Unit :=
  match disk with
  | .absent => (queue, .absent, .ok ())
  | .corrupt => (queue, .corrupt, .error ())
  | .stored items =>
    let queue' := queue ++ items
    if removeOk then (queue', .absent, .ok ())
    else (queue', .stored items, .error ())

/-- Replace the first element satisfying `p` (models mutation through
`iter_mut().find(..)` in queue.rs). -/
def updateFirst (p : MessageItem → Bool) (f : MessageItem → MessageItem) :
    List MessageItem → List MessageItem
  | [] => []
  | a :: as => if p a then f a :: as else a :: updateFirst p f as

/-- Accumulator of the result-processing loop in MessageQueue::retrying
(queue.rs lines 186-221): the live queue plus the to_persist /
remove_persist_succ / remove_retry_succ lists. -/
structure ProcState where
  queue : List MessageItem
  to_persist : List MessageItem
  remove_persist_succ : List String
  remove_retry_succ : List String

/-- One send result applied to the queue (queue.rs lines 193-221): find the
first item with the reported id; a success is marked for removal; a failure
either marks the item for persistence (retry budget exhausted) or increments
its retry state in place. -/
def processResult (now : Nat) (st : ProcState) (r : String × Bool) : ProcState :=
  match st.queue.find? (fun i => i.id == r.1) with
  | none => st
  | some item =>
    if r.2 then
      { st with remove_retry_succ := st.remove_retry_succ ++ [item.id] }
    else if item.should_persist then
      { st with to_persist := st.to_persist ++ [item],
                remove_persist_succ := st.remove_persist_succ ++ [item.id] }
    else
      { st with queue :=
          updateFirst (fun i => i.id == r.1) (fun i => i.increment_retry now) st.queue }

/-- Promotion phase of the retry tick (queue.rs lines 227-243): nothing to
persist is a no-op; otherwise append to disk and only on a confirmed write
remove the persisted ids from the queue; on a write failure the queue and the
file are left untouched. -/
def persistPhase (queue : List MessageItem) (disk : DiskFile)
    (to_persist : List MessageItem) (remove_persist_succ : List String)
    (writeOk : Bool) : List MessageItem × DiskFile :=
  if to_persist.isEmpty then (queue, disk)
  else
    match append_to_disk disk to_persist writeOk with
    | .ok disk' =>
      (queue.filter (fun it => !remove_persist_succ.contains it.id), disk')
    | .error _ => (queue, disk)

/-- Outcome of one retry-loop iteration. -/
structure RetryOutcome where
  queue : List MessageItem
  disk : DiskFile
  attempted : List MessageItem
  to_persist : List MessageItem
deriving DecidableEq

/-- One iteration of the retry loop (queue.rs, MessageQueue::retrying, lines
156-243): snapshot the due items under the read lock, send each (the `send`
oracle gives the result), apply the results under the write lock, drop the
successfully-sent ids, then run the promotion phase. -/
def retry_tick (queue : List MessageItem) (disk : DiskFile)
    (send : MessageItem → Bool) (now : Nat) (writeOk : Bool) : RetryOutcome :=
  let items_to_retry := queue.filter (fun it => it.can_retry now)
  let send_results := items_to_retry.map (fun it => (it.id, send it))
  let st := send_results.foldl (processResult now)
    ⟨queue, [], [], []⟩
  let queue2 := st.queue.filter (fun it => !st.remove_retry_succ.contains it.id)
  let after := persistPhase queue2 disk st.to_persist st.remove_persist_succ writeOk
  ⟨after.1, after.2, items_to_retry, st.to_persist⟩

/-- Shutdown flush (queue.rs, MessageQueue::shutdown): after stopping the
retry task, every item still in memory is appended to the persist file; an
empty queue skips the write. -/
def shutdown (queue : List MessageItem) (disk : DiskFile)
    (writeOk : Bool) : Except Unit DiskFile :=
  if queue.isEmpty then .ok disk
  else append_to_disk disk queue writeOk

/-- Kind filter (gzctf.rs, GzctfClient::filter_by_type): keeps the notices
whose wire type string parses to the given kind. -/
def filter_by_type (notices : List Notice) (notice_type : NoticeType) : List Notice :=
  notices.filter (fun n => NoticeType.fromStr n.notice_type == some notice_type)

/-- Stable insertion of a notice into a time-sorted list; ties keep the
original relative order, matching the stable `sort_by_key`. -/
def insertByTime (n : Notice) : List Notice → List Notice
  | [] => [n]
  | m :: ms => if n.time ≤ m.time then n :: m :: ms else m :: insertByTime n ms

/-- Stable sort by timestamp (polling.rs sorts the new notices with
`sort_by_key` on the time field). -/
def sortByTime (ns : List Notice) : List Notice :=
  ns.foldr insertByTime []

/-- New-announcement filter (polling.rs, PollingService::get_new_notices):
keep the notices strictly newer than the recorded watermark, sorted by time. -/
def get_new_notices (notices : List Notice) (last_max : Nat) : List Notice :=
  sortByTime (notices.filter (fun n => decide (last_max < n.time)))

/-- Queue item id (polling.rs, broadcast_single builds
"match_id:notice_id:time"). -/
def messageId (match_id : Nat) (n : Notice) : String :=
  toString match_id ++ ":" ++ toString n.id ++ ":" ++ toString n.time

/-- Shared state touched by one poll tick: the tracker and the delivery
queue's in-memory list. -/
structure PollState where
  tracker : NoticeTracker
  queue : List MessageItem

/-- Immediate delivery of one notice (polling.rs,
PollingService::broadcast_single): on a send failure the notice is wrapped
into a fresh MessageItem and enqueued; the queue is returned. -/
def broadcast_single (match_id : Nat) (match_name : Option String)
    (base_url : String) (notice_type : NoticeType) (n : Notice)
    (sendOk : Bool) (now : Nat) (queue : List MessageItem) : List MessageItem :=
  if sendOk then queue
  else queue ++ [MessageItem.new (messageId match_id n) n notice_type
                  match_name match_id base_url now]

/-- Delivery sweep over the new notices (polling.rs,
PollingService::broadcast): for each notice, attempt the send (enqueueing on
failure) and then record the timestamp in the tracker regardless of the send
result. -/
def broadcast (match_id : Nat) (match_name : Option String) (base_url : String)
    (notice_type : NoticeType) (type_str : String) (notices : List Notice)
    (send : Notice → Bool) (now : Nat) (s : PollState) : PollState :=
  notices.foldl (fun s n =>
    { tracker := s.tracker.update_timestamp match_id type_str n.time,
      queue := broadcast_single match_id match_name base_url notice_type n
                 (send n) now s.queue }) s

/-- One (competition, kind) step of a poll tick (polling.rs,
PollingService::handle_notices): filter by kind, diff against the watermark,
and broadcast the survivors; returns the state and the notices for which a
delivery was attempted. -/
def handle_notices (match_id : Nat) (match_name : Option String)
    (base_url : String) (notice_type : NoticeType) (notices : List Notice)
    (send : Notice → Bool) (now : Nat) (s : PollState) :
    PollState × List Notice :=
  let type_str := notice_type.typeStr
  let filtered := filter_by_type notices notice_type
  let last_timestamp := s.tracker.get_timestamp match_id type_str
  let new_notices := get_new_notices filtered last_timestamp
  if new_notices.isEmpty then (s, [])
  else (broadcast match_id match_name base_url notice_type type_str
          new_notices send now s, new_notices)

/-- Input of one (competition, kind) polling step: the fetch result plus the
send oracle and clock for that step. -/
structure TickInput where
  match_id : Nat
  match_name : Option String
  base_url : String
  notice_type : NoticeType
  notices : List Notice
  send : Notice → Bool
  now : Nat

/-- Run a sequence of polling steps, collecting every attempted delivery
tagged with its (competition, kind) key. -/
def runPolls (s : PollState) : List TickInput →
    PollState × List (Nat × String × Notice)
  | [] => (s, [])
  | i :: is =>
    let step := handle_notices i.match_id i.match_name i.base_url
      i.notice_type i.notices i.send i.now s
    let rest := runPolls step.1 is
    (rest.1, step.2.map (fun n => (i.match_id, i.notice_type.typeStr, n)) ++ rest.2)

/-- Per-item view of one failed send in the retry loop (the Err branch of
queue.rs lines 200-218): an exhausted item is persisted and leaves the queue
(`none`); otherwise its retry state is bumped (`some`). -/
def failStep (now : Nat) (it : MessageItem) : Option MessageItem :=
  if it.should_persist then none else some (it.increment_retry now)

/-- Iterated failed sends of one item: `failN now k it` is the item's queue
state after `k` consecutive failed delivery attempts. -/
def failN (now : Nat) : Nat → MessageItem → Option MessageItem
  | 0, it => some it
  | k + 1, it =>
    match failStep now it with
    | none => none
    | some it' => failN now k it'

/-- One retry-loop iteration with every send failing and the durable write
succeeding, keeping only the queue and the file state. -/
def tickFail (st : List MessageItem × DiskFile) (now : Nat) :
    List MessageItem × DiskFile :=
  let r := retry_tick st.1 st.2 (fun _ => false) now true
  (r.queue, r.disk)

/-- Concrete announcement used in witnesses and counterexamples. -/
def noticeA : Notice :=
  { id := 7, notice_type := "Normal", values := ["hello"], time := 50 }

/-- Concrete fresh queue item (created at time 100 after a failed immediate
send of noticeA). -/
def itemA : MessageItem :=
  MessageItem.new (messageId 1 noticeA) noticeA .Normal none 1 "https://ctf.example" 100

/-- Concrete exhausted queue item: retry budget spent, long since due. -/
def itemE : MessageItem :=
  { itemA with retry_count := 4, next_retry_at := 0 }

/-- Queue/file state after four consecutive failed retries of itemA. -/
def c2state4 : List MessageItem × DiskFile :=
  tickFail (tickFail (tickFail (tickFail ([itemA], DiskFile.absent) 100) 104) 112) 128

/-- Queue/file state after the fifth consecutive failed retry of itemA. -/
def c2state5 : List MessageItem × DiskFile :=
  tickFail c2state4 160

lemma mem_insertByTime {x n : Notice} {l : List Notice} :
    x ∈ insertByTime n l ↔ x = n ∨ x ∈ l := by
  induction l with
  | nil => simp [insertByTime]
  | cons m ms ih =>
    by_cases h : n.time ≤ m.time
    · simp [insertByTime, h]
    · simp [insertByTime, h, ih]
      tauto

lemma mem_sortByTime {x : Notice} {l : List Notice} :
    x ∈ sortByTime l ↔ x ∈ l := by
  induction l with
  | nil => simp [sortByTime]
  | cons m ms ih =>
    simp only [sortByTime, List.foldr_cons] at *
    rw [mem_insertByTime, ih]
    simp

lemma lt_of_mem_get_new_notices {x : Notice} {ns : List Notice} {w : Nat}
    (h : x ∈ get_new_notices ns w) : w < x.time := by
  unfold get_new_notices at h
  rw [mem_sortByTime] at h
  simpa using (List.of_mem_filter h)

lemma not_mem_get_new_notices {x : Notice} {ns : List Notice} {w : Nat}
    (h : x.time ≤ w) : x ∉ get_new_notices ns w := by
  intro hmem
  exact absurd (lt_of_mem_get_new_notices hmem) (not_lt.mpr h)

lemma get_timestamp_update_le (t : NoticeTracker) (mid : Nat) (ts : String)
    (time : Nat) (mid' : Nat) (ts' : String) :
    t.get_timestamp mid' ts' ≤
      (t.update_timestamp mid ts time).get_timestamp mid' ts' := by
  unfold NoticeTracker.get_timestamp NoticeTracker.update_timestamp
  by_cases h : trackerKey mid' ts' = trackerKey mid ts
  · simp [h]
  · simp [h]

lemma get_timestamp_update_self (t : NoticeTracker) (mid : Nat) (ts : String)
    (time : Nat) :
    time ≤ (t.update_timestamp mid ts time).get_timestamp mid ts := by
  unfold NoticeTracker.get_timestamp NoticeTracker.update_timestamp
  simp

lemma broadcast_get_timestamp_le (mid : Nat) (mc : Option String) (b : String)
    (nt : NoticeType) (ts : String) (ns : List Notice) (send : Notice → Bool)
    (now : Nat) (s : PollState) (mid' : Nat) (ts' : String) :
    s.tracker.get_timestamp mid' ts' ≤
      (broadcast mid mc b nt ts ns send now s).tracker.get_timestamp mid' ts' := by
  induction ns generalizing s with
  | nil => exact le_rfl
  | cons n rest ih =>
    refine le_trans ?_ (ih _)
    exact get_timestamp_update_le _ _ _ _ _ _

lemma broadcast_queue_mono (mid : Nat) (mc : Option String) (b : String)
    (nt : NoticeType) (ts : String) (ns : List Notice) (send : Notice → Bool)
    (now : Nat) (s : PollState) (x : MessageItem) (hx : x ∈ s.queue) :
    x ∈ (broadcast mid mc b nt ts ns send now s).queue := by
  induction ns generalizing s with
  | nil => exact hx
  | cons n rest ih =>
    refine ih _ ?_
    unfold broadcast_single
    by_cases h : send n
    · simpa [h] using hx
    · simp [h]
      exact Or.inl hx

lemma handle_get_timestamp_le (mid : Nat) (mc : Option String) (b : String)
    (nt : NoticeType) (ns : List Notice) (send : Notice → Bool) (now : Nat)
    (s : PollState) (mid' : Nat) (ts' : String) :
    s.tracker.get_timestamp mid' ts' ≤
      (handle_notices mid mc b nt ns send now s).1.tracker.get_timestamp mid' ts' := by
  unfold handle_notices
  by_cases h : (get_new_notices (filter_by_type ns nt)
      (s.tracker.get_timestamp mid nt.typeStr)).isEmpty
  · simp [h]
  · simp [h]
    exact broadcast_get_timestamp_le _ _ _ _ _ _ _ _ _ _ _

lemma handle_delivered_gt (mid : Nat) (mc : Option String) (b : String)
    (nt : NoticeType) (ns : List Notice) (send : Notice → Bool) (now : Nat)
    (s : PollState) (x : Notice)
    (hx : x ∈ (handle_notices mid mc b nt ns send now s).2) :
    s.tracker.get_timestamp mid nt.typeStr < x.time := by
  unfold handle_notices at hx
  by_cases h : (get_new_notices (filter_by_type ns nt)
      (s.tracker.get_timestamp mid nt.typeStr)).isEmpty
  · simp [h] at hx
  · simp [h] at hx
    exact lt_of_mem_get_new_notices hx

/-- Claim C1: for any sequence of fetch results, an announcement already
recorded as seen for its (competition, kind) — i.e. whose timestamp the
tracker watermark for that key covers — is never delivered again on any
subsequent poll tick, no matter how often later polls re-fetch it. -/
theorem c1_dedup (s : PollState) (inputs : List TickInput) (mid : Nat)
    (nt : NoticeType) (n : Notice)
    (hcov : n.time ≤ s.tracker.get_timestamp mid nt.typeStr) :
    (mid, nt.typeStr, n) ∉ (runPolls s inputs).2 := by
  induction inputs generalizing s with
  | nil => simp [runPolls]
  | cons i is ih =>
    simp only [runPolls, List.mem_append, List.mem_map]
    rintro (⟨x, hx, hEq⟩ | hrest)
    · obtain ⟨hmid, hts, hx'⟩ : i.match_id = mid ∧ i.notice_type.typeStr = nt.typeStr ∧ x = n := by
        have h1 := congrArg Prod.fst hEq
        have h2 := congrArg (fun p => p.2.1) hEq
        have h3 := congrArg (fun p => p.2.2) hEq
        exact ⟨h1, h2, h3⟩
      have hlt := handle_delivered_gt i.match_id i.match_name i.base_url
        i.notice_type i.notices i.send i.now s x hx
      rw [hmid, hts, hx'] at hlt
      exact absurd hlt (not_lt.mpr hcov)
    · have hmono := handle_get_timestamp_le i.match_id i.match_name i.base_url
        i.notice_type i.notices i.send i.now s mid nt.typeStr
      exact ih _ (le_trans hcov hmono) hrest

/-- Poll state used to witness the dedup claim: the watermark for
(match 1, Normal) already covers noticeA. -/
def stateW : PollState :=
  { tracker := NoticeTracker.new.set_timestamp 1 "Normal" 100, queue := [] }

/-- Polling step used to witness the dedup claim: a later poll re-fetches
noticeA. -/
def tickW : TickInput :=
  { match_id := 1, match_name := none, base_url := "https://ctf.example",
    notice_type := .Normal, notices := [noticeA], send := fun _ => true,
    now := 200 }

theorem c1_dedup_witness :
    noticeA.time ≤ stateW.tracker.get_timestamp 1 NoticeType.Normal.typeStr
    ∧ (1, NoticeType.Normal.typeStr, noticeA) ∉ (runPolls stateW [tickW]).2 :=
  ⟨by decide, c1_dedup stateW [tickW] 1 .Normal noticeA (by decide)⟩

lemma broadcast_cons (mid : Nat) (mc : Option String) (b : String)
    (nt : NoticeType) (ts : String) (n : Notice) (rest : List Notice)
    (send : Notice → Bool) (now : Nat) (s : PollState) :
    broadcast mid mc b nt ts (n :: rest) send now s =
      broadcast mid mc b nt ts rest send now
        { tracker := s.tracker.update_timestamp mid ts n.time,
          queue := broadcast_single mid mc b nt n (send n) now s.queue } := rfl

/-- Claim C4: within a poll tick, for every new announcement the broadcast
sweep attempts delivery and then records the announcement in the tracker
whether or not the send succeeded; a failed send additionally enqueues the
announcement, and the recorded watermark excludes the announcement from the
new-announcement filter of any later poll. -/
theorem c4_broadcast_records (mid : Nat) (mc : Option String) (b : String)
    (nt : NoticeType) (ts : String) (ns : List Notice) (send : Notice → Bool)
    (now : Nat) (s : PollState) (n : Notice) (hn : n ∈ ns) :
    n.time ≤ (broadcast mid mc b nt ts ns send now s).tracker.get_timestamp mid ts
    ∧ (send n = false →
        MessageItem.new (messageId mid n) n nt mc mid b now
          ∈ (broadcast mid mc b nt ts ns send now s).queue)
    ∧ ∀ ms, n ∉ get_new_notices ms
        ((broadcast mid mc b nt ts ns send now s).tracker.get_timestamp mid ts) := by
  induction ns generalizing s with
  | nil => cases hn
  | cons m rest ih =>
    rw [broadcast_cons]
    rcases List.mem_cons.mp hn with hEq | hmem
    · subst hEq
      have hrec : n.time ≤ (broadcast mid mc b nt ts rest send now
          { tracker := s.tracker.update_timestamp mid ts n.time,
            queue := broadcast_single mid mc b nt n (send n) now s.queue
          }).tracker.get_timestamp mid ts := by
        refine le_trans (get_timestamp_update_self s.tracker mid ts n.time) ?_
        exact broadcast_get_timestamp_le mid mc b nt ts rest send now
          { tracker := s.tracker.update_timestamp mid ts n.time,
            queue := broadcast_single mid mc b nt n (send n) now s.queue } mid ts
      refine ⟨hrec, ?_, fun ms => not_mem_get_new_notices hrec⟩
      intro hsend
      refine broadcast_queue_mono mid mc b nt ts rest send now _ _ ?_
      unfold broadcast_single
      simp [hsend]
    · exact ih _ hmem

theorem c4_broadcast_records_witness :
    noticeA ∈ [noticeA]
    ∧ (noticeA.time ≤
        (broadcast 1 none "u" .Normal "Normal" [noticeA] (fun _ => false) 100
          { tracker := NoticeTracker.new, queue := [] }).tracker.get_timestamp 1 "Normal"
      ∧ ((fun (_ : Notice) => false) noticeA = false →
          MessageItem.new (messageId 1 noticeA) noticeA .Normal none 1 "u" 100
            ∈ (broadcast 1 none "u" .Normal "Normal" [noticeA] (fun _ => false) 100
                { tracker := NoticeTracker.new, queue := [] }).queue)
      ∧ ∀ ms, noticeA ∉ get_new_notices ms
          ((broadcast 1 none "u" .Normal "Normal" [noticeA] (fun _ => false) 100
            { tracker := NoticeTracker.new, queue := [] }).tracker.get_timestamp 1 "Normal")) :=
  ⟨by decide,
   c4_broadcast_records 1 none "u" .Normal "Normal" [noticeA] (fun _ => false) 100
     { tracker := NoticeTracker.new, queue := [] } noticeA (by decide)⟩

/-- Claim C2, counterexample: itemA enters the queue fresh and every send
fails; after exactly 4 failed retries (ticks at 100, 104, 112, 128) the item
is still in the in-memory queue and the persistent store is still absent —
so it is not true that an item fails exactly 4 retries before being removed
and persisted; the removal and the store write happen only on the 5th
failure (tick at 160). -/
theorem c2_retry_budget_counterexample :
    c2state4.1 ≠ []
    ∧ c2state4.2 = DiskFile.absent
    ∧ c2state5.1 = []
    ∧ c2state5.2 = DiskFile.stored
        [{ itemA with retry_count := 4, next_retry_at := 160 }] := by
  decide

/-- Claim C2 as amended: a queue item whose deliveries keep failing fails
exactly 5 retries — after 4 failed retries it is still queued with
retry_count 4 (and is then due again), never fewer; the 5th failed retry
removes it — and the promotion write appends it to the persistent store
exactly once. -/
theorem c2_retry_budget (it : MessageItem) (now : Nat)
    (existing : List MessageItem) (h0 : it.retry_count = 0) :
    failN now 4 it = some { it with retry_count := 4, next_retry_at := now + 32 }
    ∧ MessageItem.should_persist
        { it with retry_count := 4, next_retry_at := now + 32 } = true
    ∧ failN now 5 it = none
    ∧ append_to_disk (.stored existing)
        [{ it with retry_count := 4, next_retry_at := now + 32 }] true =
        .ok (.stored (existing ++ [{ it with retry_count := 4, next_retry_at := now + 32 }]))
    ∧ (existing ++ [{ it with retry_count := 4, next_retry_at := now + 32 }]).count
        { it with retry_count := 4, next_retry_at := now + 32 } =
        existing.count { it with retry_count := 4, next_retry_at := now + 32 } + 1 := by
  obtain ⟨i, no, ty, mn, mi, bu, rc, nra⟩ := it
  simp only [MessageItem.mk.injEq] at h0 ⊢
  subst h0
  refine ⟨?_, ?_, ?_, ?_, ?_⟩
  · simp [failN, failStep, MessageItem.should_persist, MessageItem.increment_retry,
      MessageItem.calc_delay]
  · simp [MessageItem.should_persist]
  · simp [failN, failStep, MessageItem.should_persist, MessageItem.increment_retry,
      MessageItem.calc_delay]
  · simp [append_to_disk, diskItems]
  · simp [List.count_append, List.count_singleton]

theorem c2_retry_budget_witness :
    itemA.retry_count = 0
    ∧ (failN 100 4 itemA = some { itemA with retry_count := 4, next_retry_at := 100 + 32 }
      ∧ MessageItem.should_persist
          { itemA with retry_count := 4, next_retry_at := 100 + 32 } = true
      ∧ failN 100 5 itemA = none
      ∧ append_to_disk (.stored [])
          [{ itemA with retry_count := 4, next_retry_at := 100 + 32 }] true =
          .ok (.stored ([] ++ [{ itemA with retry_count := 4, next_retry_at := 100 + 32 }]))
      ∧ ([] ++ [{ itemA with retry_count := 4, next_retry_at := 100 + 32 }]).count
          { itemA with retry_count := 4, next_retry_at := 100 + 32 } =
          ([] : List MessageItem).count
            { itemA with retry_count := 4, next_retry_at := 100 + 32 } + 1) :=
  ⟨by decide, c2_retry_budget itemA 100 [] (by decide)⟩

/-- Claim C3, counterexample: itemA has suffered 0 failed retries
(retry_count = 0); the claim says the delay scheduled after its 0-th failure
is 2^(0+1) = 2 seconds, but the code increments the count before computing
the delay and schedules 4 seconds. -/
theorem c3_backoff_counterexample :
    itemA.retry_count = 0
    ∧ (itemA.increment_retry 1000).next_retry_at = 1004
    ∧ 1000 + 2 ^ (0 + 1) ≠ 1004 := by
  decide

/-- Claim C3 as amended: after the n-th failed delivery attempt (0-indexed,
n < 4) the delay scheduled before the next retry is exactly 2^(n+2) seconds
— 4s, 8s, 16s, 32s — strictly increasing in n, with a maximum observed delay
of 32 seconds before the item is persisted. -/
theorem c3_backoff (it : MessageItem) (now n : Nat)
    (hn : it.retry_count = n) (h4 : n < 4) :
    (it.increment_retry now).retry_count = n + 1
    ∧ (it.increment_retry now).next_retry_at = now + 2 ^ (n + 2)
    ∧ (∀ m, m < n → 2 ^ (m + 2) < 2 ^ (n + 2))
    ∧ 2 ^ (n + 2) ≤ 32 := by
  have h256 : n + 1 < 256 := by omega
  have h64 : n + 2 < 64 := by omega
  refine ⟨?_, ?_, ?_, ?_⟩
  · simp [MessageItem.increment_retry, hn, Nat.mod_eq_of_lt h256]
  · simp [MessageItem.increment_retry, MessageItem.calc_delay, hn,
      Nat.mod_eq_of_lt h256, Nat.mod_eq_of_lt h64]
    omega
  · intro m hm
    exact Nat.pow_lt_pow_right one_lt_two (by omega)
  · calc 2 ^ (n + 2) ≤ 2 ^ 5 := Nat.pow_le_pow_right (by omega) (by omega)
    _ = 32 := by norm_num

theorem c3_backoff_witness :
    (itemA.retry_count = 0 ∧ 0 < 4)
    ∧ ((itemA.increment_retry 1000).retry_count = 0 + 1
      ∧ (itemA.increment_retry 1000).next_retry_at = 1000 + 2 ^ (0 + 2)
      ∧ (∀ m, m < 0 → 2 ^ (m + 2) < 2 ^ (0 + 2))
      ∧ 2 ^ (0 + 2) ≤ 32) :=
  ⟨⟨by decide, by decide⟩, c3_backoff itemA 1000 0 (by decide) (by decide)⟩

/-- Claim C5: in the promotion phase of the retry loop, a failed durable
write leaves the in-memory queue and the file exactly as they were (no item
is ever dropped on a persistence failure), and when the durable write
succeeds every promoted item is contained in the store before any removal
takes effect. -/
theorem c5_persist_only_after_write (q : List MessageItem) (disk : DiskFile)
    (to_persist : List MessageItem) (remove_persist_succ : List String) :
    persistPhase q disk to_persist remove_persist_succ false = (q, disk)
    ∧ ∀ it ∈ to_persist,
        it ∈ diskItems (persistPhase q disk to_persist remove_persist_succ true).2 := by
  constructor
  · unfold persistPhase append_to_disk
    cases h : to_persist.isEmpty <;> simp [h]
  · intro it hit
    have hne : to_persist.isEmpty = false := by
      cases to_persist with
      | nil => cases hit
      | cons a l => rfl
    unfold persistPhase append_to_disk
    simp [hne, diskItems]
    exact Or.inr hit

theorem c5_persist_only_after_write_witness :
    itemE ∈ [itemE]
    ∧ itemE ∈ diskItems (persistPhase [itemE] DiskFile.absent [itemE] [itemE.id] true).2 :=
  ⟨by decide,
   (c5_persist_only_after_write [itemE] DiskFile.absent [itemE] [itemE.id]).2
     itemE (by decide)⟩

/-- Claim C6: every item in the in-memory queue when shutdown is invoked is
in the persistent store after shutdown returns, merged after the
pre-existing store content; occurrence counts add up, so there is no loss
and no duplication beyond what the inputs already contained. -/
theorem c6_shutdown_complete (q existing : List MessageItem) :
    shutdown q (.stored existing) true = .ok (.stored (existing ++ q))
    ∧ (∀ it ∈ q, it ∈ existing ++ q)
    ∧ ∀ it : MessageItem,
        (existing ++ q).count it = existing.count it + q.count it := by
  refine ⟨?_, ?_, ?_⟩
  · unfold shutdown append_to_disk
    cases q with
    | nil => simp
    | cons a l => simp [diskItems]
  · intro it hit
    exact List.mem_append_right _ hit
  · intro it
    exact List.count_append _ _ _

theorem c6_shutdown_complete_witness :
    itemA ∈ [itemA] ∧ itemA ∈ [itemE] ++ [itemA] :=
  ⟨by decide, (c6_shutdown_complete [itemA] [itemE]).2.1 itemA (by decide)⟩

/-- Claim C7: at startup, when the store file parses, every stored item is
appended verbatim (saved retry state included) to the in-memory queue and
the file is then deleted; when the store content cannot be parsed, the load
returns an error instead of swallowing the failure. -/
theorem c7_load_from_disk (q items : List MessageItem) (removeOk : Bool) :
    load_from_disk (.stored items) q true = (q ++ items, .absent, .ok ())
    ∧ (∀ it ∈ items, it ∈ (load_from_disk (.stored items) q true).1)
    ∧ load_from_disk .corrupt q removeOk = (q, .corrupt, .error ()) := by
  refine ⟨rfl, ?_, rfl⟩
  intro it hit
  simp [load_from_disk]
  exact Or.inr hit

theorem c7_load_from_disk_witness :
    itemE ∈ [itemE]
    ∧ itemE ∈ (load_from_disk (.stored [itemE]) [itemA] true).1 :=
  ⟨by decide, (c7_load_from_disk [itemA] [itemE] true).2.1 itemE (by decide)⟩

/-- Claim C10: when the persist file exists but does not parse at
append time, append_to_disk silently treats the existing content as empty
and rewrites the file with only the newly appended items — the pre-existing
entries are lost and no error is reported — while the startup load path is
the only one that surfaces a parse error. -/
theorem c10_corrupt_append (items : List MessageItem) (q : List MessageItem)
    (removeOk : Bool) (hne : items ≠ []) :
    append_to_disk .corrupt items true = .ok (.stored items)
    ∧ load_from_disk .corrupt q removeOk = (q, .corrupt, .error ()) := by
  refine ⟨?_, rfl⟩
  have h : items.isEmpty = false := by
    cases items with
    | nil => exact absurd rfl hne
    | cons a l => rfl
  simp [append_to_disk, h, diskItems]

theorem c10_corrupt_append_witness :
    [itemE] ≠ ([] : List MessageItem)
    ∧ (append_to_disk .corrupt [itemE] true = .ok (.stored [itemE])
      ∧ load_from_disk .corrupt [itemA] true = ([itemA], .corrupt, .error ())) :=
  ⟨by decide, c10_corrupt_append [itemE] [itemA] true (by decide)⟩

/-- Claim C8, counterexample: itemE has retry_count = 4 and is due, yet the
retry loop attempts (sends) it again — and since that send succeeds, the
item is removed without ever being promoted to persistent storage, so an
item whose retryCount reached 4 is neither necessarily persisted nor beyond
further send attempts. -/
theorem c8_exhausted_counterexample :
    itemE.retry_count = 4
    ∧ (retry_tick [itemE] DiskFile.absent (fun _ => true) 100 true).attempted = [itemE]
    ∧ (retry_tick [itemE] DiskFile.absent (fun _ => true) 100 true).disk = DiskFile.absent
    ∧ (retry_tick [itemE] DiskFile.absent (fun _ => true) 100 true).queue = [] := by
  decide

/-- Claim C8 as amended: a due queue item whose retryCount has reached 4 is
attempted exactly once more by the retry loop; whatever the outcome it
leaves the in-memory queue (on a failed send, with a confirmed write, it is
promoted to the persistent store; on a successful send it is removed without
promotion), and once the queue is empty the loop attempts nothing further. -/
theorem c8_exhausted (it : MessageItem) (disk : DiskFile)
    (send : MessageItem → Bool) (now : Nat)
    (h4 : 4 ≤ it.retry_count) (hdue : it.can_retry now = true) :
    ((retry_tick [it] disk send now true).attempted = [it]
    ∧ (retry_tick [it] disk send now true).queue = []
    ∧ (send it = false →
        it ∈ (retry_tick [it] disk send now true).to_persist
        ∧ it ∈ diskItems (retry_tick [it] disk send now true).disk)
    ∧ (send it = true → (retry_tick [it] disk send now true).disk = disk))
    ∧ ∀ (d : DiskFile) (s : MessageItem → Bool) (n : Nat) (w : Bool),
        (retry_tick [] d s n w).attempted = [] := by
  have hsp : it.should_persist = true := by
    simp [MessageItem.should_persist]
    omega
  constructor
  · cases hsend : send it with
    | true =>
      refine ⟨?_, ?_, ?_, ?_⟩ <;>
        simp [retry_tick, processResult, persistPhase, append_to_disk, diskItems,
          hdue, hsend, hsp, List.find?]
    | false =>
      refine ⟨?_, ?_, ?_, ?_⟩ <;>
        simp [retry_tick, processResult, persistPhase, append_to_disk, diskItems,
          hdue, hsend, hsp, List.find?]
  · intro d s n w
    rfl

/-- Send oracle that always fails, used to witness the amended C8 claim. -/
def sendAlwaysFail : MessageItem → Bool := fun _ => false

theorem c8_exhausted_witness :
    (4 ≤ itemE.retry_count ∧ itemE.can_retry 100 = true)
    ∧ (((retry_tick [itemE] (DiskFile.stored []) sendAlwaysFail 100 true).attempted = [itemE]
      ∧ (retry_tick [itemE] (DiskFile.stored []) sendAlwaysFail 100 true).queue = []
      ∧ (sendAlwaysFail itemE = false →
          itemE ∈ (retry_tick [itemE] (DiskFile.stored []) sendAlwaysFail 100 true).to_persist
          ∧ itemE ∈ diskItems (retry_tick [itemE] (DiskFile.stored []) sendAlwaysFail 100 true).disk)
      ∧ (sendAlwaysFail itemE = true →
          (retry_tick [itemE] (DiskFile.stored []) sendAlwaysFail 100 true).disk =
            DiskFile.stored []))
    ∧ ∀ (d : DiskFile) (s : MessageItem → Bool) (n : Nat) (w : Bool),
        (retry_tick [] d s n w).attempted = []) :=
  ⟨⟨by decide, by decide⟩,
   c8_exhausted itemE (DiskFile.stored []) sendAlwaysFail 100 (by decide) (by decide)⟩

/-- Claim C9, counterexample: id 5 is recorded as seen for (1, Normal), but
a later mark_all_seen for the same key with ids [7] replaces the whole set
and evicts id 5 — so it is not true that every tracker operation only grows
the per-key seen-id set. -/
theorem c9_tracker_counterexample :
    (NoticeTracker.new.mark_seen 1 "Normal" 5).is_seen 1 "Normal" 5 = true
    ∧ ((NoticeTracker.new.mark_seen 1 "Normal" 5).mark_all_seen 1 "Normal" [7]).is_seen
        1 "Normal" 5 = false := by
  constructor <;> rfl

/-- Claim C9 as amended: mark_seen preserves every recorded id (under any
key), is idempotent, and records its id; the spec-modelled update_timestamp
watermark is monotonically non-decreasing; mark_all_seen, however, replaces
the key's entire set and can evict previously recorded ids. -/
theorem c9_tracker_invariants :
    (∀ (t : NoticeTracker) (mid : Nat) (ts : String) (i : Nat)
       (mid' : Nat) (ts' : String) (j : Nat),
       t.is_seen mid' ts' j = true →
         (t.mark_seen mid ts i).is_seen mid' ts' j = true)
    ∧ (∀ (t : NoticeTracker) (mid : Nat) (ts : String) (i : Nat),
        (t.mark_seen mid ts i).is_seen mid ts i = true)
    ∧ (∀ (t : NoticeTracker) (mid : Nat) (ts : String) (i : Nat)
         (mid' : Nat) (ts' : String) (j : Nat),
        ((t.mark_seen mid ts i).mark_seen mid ts i).is_seen mid' ts' j =
          (t.mark_seen mid ts i).is_seen mid' ts' j)
    ∧ (∀ (t : NoticeTracker) (mid : Nat) (ts : String) (time : Nat)
         (mid' : Nat) (ts' : String),
        t.get_timestamp mid' ts' ≤
          (t.update_timestamp mid ts time).get_timestamp mid' ts') := by
  refine ⟨?_, ?_, ?_, ?_⟩
  · intro t mid ts i mid' ts' j h
    unfold NoticeTracker.is_seen NoticeTracker.mark_seen at *
    by_cases hk : trackerKey mid' ts' = trackerKey mid ts
    · rw [hk] at h ⊢
      cases hs : t.seen_ids (trackerKey mid ts) with
      | none => rw [hs] at h; simp at h
      | some s =>
        rw [hs] at h
        simp at h
        simp [hs, h]
    · simp only [hk, if_false]
      exact h
  · intro t mid ts i
    unfold NoticeTracker.is_seen NoticeTracker.mark_seen
    simp
  · intro t mid ts i mid' ts' j
    unfold NoticeTracker.is_seen NoticeTracker.mark_seen
    by_cases hk : trackerKey mid' ts' = trackerKey mid ts
    · simp only [hk, if_pos rfl]
      simp
    · simp only [hk, if_false]
  · intro t mid ts time mid' ts'
    exact get_timestamp_update_le t mid ts time mid' ts'

theorem c9_tracker_invariants_witness :
    (NoticeTracker.new.mark_seen 1 "Normal" 5).is_seen 1 "Normal" 5 = true
    ∧ ((NoticeTracker.new.mark_seen 1 "Normal" 5).mark_seen 2 "Normal" 9).is_seen
        1 "Normal" 5 = true :=
  ⟨c9_tracker_invariants.2.1 NoticeTracker.new 1 "Normal" 5,
   c9_tracker_invariants.1 (NoticeTracker.new.mark_seen 1 "Normal" 5) 2 "Normal" 9
     1 "Normal" 5 (c9_tracker_invariants.2.1 NoticeTracker.new 1 "Normal" 5)⟩
